import Mathlib

/-!
Verification of the memscope-rs dashboard web server
(`start_web_dashboard.py`) against its design specification.

The script is embedded shallowly: the filesystem is a map from path
strings to optional file contents, request handling is a pure function
from filesystem state and request path to a response, and the process
entry point is a function from filesystem state, port-bindability and a
list of incoming events to a trace of observable actions plus an exit
code.
-/

namespace Memscope

/-- Filesystem model: a path is mapped to `some content` when a file
(or directory) exists at that path, `none` otherwise. -/
abbrev FS : Type := String → Option String

/-- Python `os.path.exists`. -/
def path_exists (fs : FS) (p : String) : Bool := (fs p).isSome

/-! ### PathAliasResolver: the routing table of `DashboardHandler.do_GET` -/

/-- The path rewriting performed at the top of `DashboardHandler.do_GET`:
exact-match aliases, with a filesystem existence check only for the
`/lifecycle` aliases. -/
def resolve_path (fs : FS) (path : String) : String :=
  if path == "/" then "/dashboard_index.html"
  else if path == "/unsafe" || path == "/unsafe/" then "/unsafe_ffi_dashboard_v2.html"
  else if path == "/memory" || path == "/memory/" then "/memory_analysis_dashboard.html"
  else if path == "/classic" || path == "/classic/" then "/index.html"
  else if path == "/lifecycle" || path == "/lifecycle/" then
    if path_exists fs "web_dashboard/lifecycle_dashboard.html" = false then
      "/memory_analysis_dashboard.html"
    else "/lifecycle_dashboard.html"
  else path

/-- The alias paths recognised by `do_GET`; every other path is passed
through unchanged. -/
def alias_paths : List String :=
  ["/", "/unsafe", "/unsafe/", "/memory", "/memory/",
   "/classic", "/classic/", "/lifecycle", "/lifecycle/"]

/-! ### PortAllocator: `find_available_port` -/

/-- The loop body of `find_available_port`: try to bind each port in
ascending order, `fuel` ports remaining; `can_bind` models whether
binding a loopback socket on the port succeeds at call time. -/
def find_port_loop (can_bind : Nat → Bool) : Nat → Nat → Option Nat
  | _, 0 => none
  | port, fuel + 1 => if can_bind port then some port else find_port_loop can_bind (port + 1) fuel

/-- Python `find_available_port(start_port)`: scans `[start_port, start_port + 100)`
for the first bindable port; raises `RuntimeError` (modelled as `.error`)
when the whole range is exhausted. -/
def find_available_port (can_bind : Nat → Bool) (start_port : Nat) : Except String Nat :=
  match find_port_loop can_bind start_port 100 with
  | some p => .ok p
  | none => .error "No available ports found"

/-! ### Request log classification: `DashboardHandler.log_message` -/

/-- Python substring test `needle in hay` on the underlying character
lists. -/
def list_contains (needle : List Char) : List Char → Bool
  | [] => needle.isEmpty
  | c :: rest => needle.isPrefixOf (c :: rest) || list_contains needle rest

/-- Python `needle in hay` on strings. -/
def str_contains (hay needle : String) : Bool := list_contains needle.data hay.data

/-- The three-way request classification of the spec
(`Success | NotFound | Other`). -/
inductive Classification : Type where
  | success : Classification
  | notFound : Classification
  | other : Classification
deriving DecidableEq

/-- The classification implicit in `log_message`: branch on whether the
formatted log line contains the substring `"200"`, else `"404"`, else
fall through. -/
def classify (message : String) : Classification :=
  if str_contains message "200" then .success
  else if str_contains message "404" then .notFound
  else .other

/-- The single console line printed by `log_message` for a request whose
formatted line is `message`, timestamped with `timestamp`. -/
def log_message (timestamp message : String) : String :=
  match classify message with
  | .success => "[" ++ timestamp ++ "] ✅ " ++ message
  | .notFound => "[" ++ timestamp ++ "] ❌ " ++ message
  | .other => "[" ++ timestamp ++ "] 📡 " ++ message

/-- The standard `BaseHTTPRequestHandler.log_request` line
`"%s" %s %s % (requestline, code, size)` with the default size `-`. -/
def log_line (requestline : String) (status : Nat) : String :=
  "\"" ++ requestline ++ "\" " ++ toString status ++ " -"

/-- The `BaseHTTPRequestHandler.log_error` line
`code %d, message %s % (code, message)`, emitted by `send_error` before
it sends the response; it reaches the console through the same
overridden `log_message`. -/
def error_log_line (status : Nat) (message : String) : String :=
  "code " ++ toString status ++ ", message " ++ message

/-! ### Substring occurrence, as a specification-level predicate -/

/-- Predicate `occursIn needle hay` states that `needle` occurs contiguously
inside `hay`. -/
def occursIn (needle hay : String) : Prop :=
  ∃ pre post : List Char, hay.data = pre ++ (needle.data ++ post)

theorem data_append (a b : String) : (a ++ b).data = a.data ++ b.data := rfl

theorem list_contains_iff (needle hay : List Char) :
    list_contains needle hay = true ↔ ∃ pre post : List Char, hay = pre ++ (needle ++ post) := by
  induction hay with
  | nil =>
    simp only [list_contains, List.isEmpty_iff]
    constructor
    · rintro rfl
      exact ⟨[], [], rfl⟩
    · rintro ⟨pre, post, h⟩
      rcases List.append_eq_nil.mp h.symm with ⟨rfl, h2⟩
      rcases List.append_eq_nil.mp h2 with ⟨rfl, rfl⟩
      rfl
  | cons c rest ih =>
    simp only [list_contains, Bool.or_eq_true, List.isPrefixOf_iff_prefix, ih]
    constructor
    · rintro (⟨t, ht⟩ | ⟨pre, post, rfl⟩)
      · exact ⟨[], t, ht.symm⟩
      · exact ⟨c :: pre, post, rfl⟩
    · rintro ⟨pre, post, h⟩
      cases pre with
      | nil =>
        exact Or.inl ⟨post, by simpa using h.symm⟩
      | cons p ps =>
        rcases List.cons_eq_cons.mp h with ⟨rfl, h2⟩
        exact Or.inr ⟨ps, post, h2⟩

theorem str_contains_iff (hay needle : String) :
    str_contains hay needle = true ↔ occursIn needle hay := by
  simpa [str_contains, occursIn] using list_contains_iff needle.data hay.data


/-! ### IndexPageGenerator: `create_dashboard_index` -/

/-- A literal fragment of the page template of `create_dashboard_index`. -/
def ic_part0 : String :=
    "<!DOCTYPE html>\n"
    ++ "<html lang=\"en\">\n"
    ++ "<head>\n"
    ++ "    <meta charset=\"UTF-8\">\n"
    ++ "    <meta name=\"viewport\" content=\"width=device-width, initial-scale=1.0\">\n"
    ++ "    <title>🦀 Memory Analysis Dashboard - Home</title>\n"
    ++ "    <link rel=\"stylesheet\" href=\"styles.css\">\n"
    ++ "    <style>\n"
    ++ "        body \x7b\n"
    ++ "            font-family: -apple-system, BlinkMacSystemFont, \x27Segoe UI\x27, Roboto, sans-serif;\n"
    ++ "            margin: 0;\n"
    ++ "            padding: 0;\n"
    ++ "            background: linear-gradient(135deg, #667eea 0%, #764ba2 100%);\n"
    ++ "            min-height: 100vh;\n"
    ++ "        \x7d\n"
    ++ "        \n"
    ++ "        .container \x7b\n"
    ++ "            max-width: 1200px;\n"
    ++ "            margin: 0 auto;\n"
    ++ "            padding: 40px 20px;\n"
    ++ "        \x7d\n"
    ++ "        \n"
    ++ "        .header \x7b\n"
    ++ "            text-align: center;\n"
    ++ "            color: white;\n"
    ++ "            margin-bottom: 50px;\n"
    ++ "        \x7d\n"
    ++ "        \n"
    ++ "        .header h1 \x7b\n"
    ++ "            font-size: 3rem;\n"
    ++ "            margin-bottom: 10px;\n"
    ++ "            text-shadow: 0 2px 4px rgba(0,0,0,0.3);\n"
    ++ "        \x7d\n"
    ++ "        \n"
    ++ "        .header p \x7b\n"
    ++ "            font-size: 1.2rem;\n"
    ++ "            opacity: 0.9;\n"
    ++ "        \x7d\n"
    ++ "        \n"
    ++ "        .dashboard-grid \x7b\n"
    ++ "            display: grid;\n"
    ++ "            grid-template-columns: repeat(auto-fit, minmax(350px, 1fr));\n"
    ++ "            gap: 30px;\n"
    ++ "            margin-top: 40px;\n"
    ++ "        \x7d\n"
    ++ "        \n"
    ++ "        .dashboard-card \x7b\n"
    ++ "            background: white;\n"
    ++ "            border-radius: 16px;\n"
    ++ "            padding: 30px;\n"
    ++ "            box-shadow: 0 10px 30px rgba(0,0,0,0.2);\n"
    ++ "            transition: transform 0.3s ease, box-shadow 0.3s ease;\n"
    ++ "            text-decoration: none;\n"
    ++ "            color: inherit;\n"
    ++ "            position: relative;\n"
    ++ "            overflow: hidden;\n"
    ++ "        \x7d\n"
    ++ "        \n"
    ++ "        .dashboard-card:hover \x7b\n"
    ++ "            transform: translateY(-5px);\n"
    ++ "            box-shadow: 0 20px 40px rgba(0,0,0,0.3);\n"
    ++ "        \x7d\n"
    ++ "        \n"
    ++ "        .dashboard-card::before \x7b\n"
    ++ "            content: \x27\x27;\n"
    ++ "            position: absolute;\n"
    ++ "            top: 0;\n"
    ++ "            left: 0;\n"
    ++ "            right: 0;\n"
    ++ "            height: 4px;\n"
    ++ "            background: linear-gradient(90deg, #667eea, #764ba2);\n"
    ++ "        \x7d\n"
    ++ "        \n"
    ++ "        .card-icon \x7b\n"
    ++ "            font-size: 3rem;\n"
    ++ "            margin-bottom: 20px;\n"
    ++ "            display: block;\n"
    ++ "        \x7d\n"
    ++ "        \n"
    ++ "        .card-title \x7b\n"
    ++ "            font-size: 1.5rem;\n"
    ++ "            font-weight: bold;\n"
    ++ "            margin-bottom: 15px;\n"
    ++ "            color: #2c3e50;\n"
    ++ "        \x7d\n"
    ++ "        \n"
    ++ "        .card-description \x7b\n"
    ++ "            color: #666;\n"
    ++ "            line-height: 1.6;\n"
    ++ "            margin-bottom: 20px;\n"
    ++ "        \x7d\n"
    ++ "        \n"
    ++ "        .card-features \x7b\n"
    ++ "            list-style: none;\n"
    ++ "            padding: 0;\n"
    ++ "            margin: 0;\n"
    ++ "        \x7d\n"
    ++ "        \n"
    ++ "        .card-features li \x7b\n"
    ++ "            padding: 5px 0;\n"
    ++ "            color: #7f8c8d;\n"
    ++ "            font-size: 0.9rem;\n"
    ++ "        \x7d\n"
    ++ "        \n"
    ++ "        .card-features li:before \x7b\n"
    ++ "            content: \"✓ \";\n"
    ++ "            color: #27ae60;\n"
    ++ "            font-weight: bold;\n"
    ++ "        \x7d\n"
    ++ "        \n"
    ++ "        .status-indicator \x7b\n"
    ++ "            display: inline-block;\n"
    ++ "            width: 10px;\n"
    ++ "            height: 10px;\n"
    ++ "            border-radius: 50%;\n"
    ++ "            margin-right: 8px;\n"
    ++ "            animation: pulse 2s infinite;\n"
    ++ "        \x7d\n"
    ++ "        \n"
    ++ "        @keyframes pulse \x7b\n"
    ++ "            0% \x7b opacity: 1; \x7d\n"
    ++ "            50% \x7b opacity: 0.5; \x7d\n"
    ++ "            100% \x7b opacity: 1; \x7d\n"
    ++ "        \x7d\n"
    ++ "        \n"
    ++ "        .status-ready \x7b background: #27ae60; \x7d\n"
    ++ "        .status-beta \x7b background: #f39c12; \x7d\n"
    ++ "        .status-dev \x7b background: #e74c3c; \x7d\n"
    ++ "        \n"
    ++ "        .footer \x7b\n"
    ++ "            text-align: center;\n"
    ++ "            color: white;\n"
    ++ "            margin-top: 60px;\n"
    ++ "            opacity: 0.8;\n"
    ++ "        \x7d\n"
    ++ "        \n"
    ++ "        .data-status \x7b\n"
    ++ "            background: rgba(255,255,255,0.1);\n"
    ++ "            border-radius: 12px;\n"
    ++ "            padding: 25px;\n"
    ++ "            margin-bottom: 30px;\n"
    ++ "            color: white;\n"
    ++ "            backdrop-filter: blur(10px);\n"
    ++ "        \x7d\n"
    ++ "        \n"
    ++ "        .data-status h3 \x7b\n"
    ++ "            margin-top: 0;\n"
    ++ "            display: flex;\n"
    ++ "            align-items: center;\n"
    ++ "            gap: 10px;\n"
    ++ "        \x7d\n"
    ++ "        \n"
    ++ "        .quick-links \x7b\n"
    ++ "            display: flex;\n"
    ++ "            justify-content: center;\n"
    ++ "            gap: 15px;\n"
    ++ "            margin-top: 30px;\n"
    ++ "            flex-wrap: wrap;\n"
    ++ "        \x7d\n"
    ++ "        \n"
    ++ "        .quick-link \x7b\n"
    ++ "            background: rgba(255,255,255,0.2);\n"
    ++ "            color: white;\n"
    ++ "            padding: 10px 20px;\n"
    ++ "            border-radius: 25px;\n"
    ++ "            text-decoration: none;\n"
    ++ "            font-size: 0.9rem;\n"
    ++ "            transition: background 0.3s ease;\n"
    ++ "        \x7d\n"
    ++ "        \n"
    ++ "        .quick-link:hover \x7b\n"
    ++ "            background: rgba(255,255,255,0.3);\n"
    ++ "        \x7d\n"
    ++ "    </style>\n"
    ++ "</head>\n"
    ++ "<body>\n"
    ++ "    <div class=\"container\">\n"
    ++ "        <div class=\"header\">\n"
    ++ "            <h1>🔍 Memory Analysis Dashboard</h1>\n"
    ++ "            <p>Comprehensive Rust memory tracking and analysis suite</p>\n"
    ++ "            \n"
    ++ "            <div class=\"quick-links\">\n"
    ++ "                <a href=\"/unsafe\" class=\"quick-link\">🔒 Unsafe/FFI</a>\n"
    ++ "                <a href=\"/memory\" class=\"quick-link\">📊 Memory</a>\n"
    ++ "                <a href=\"/lifecycle\" class=\"quick-link\">⏱️ Lifecycle</a>\n"
    ++ "                <a href=\"/classic\" class=\"quick-link\">🎛️ Classic</a>\n"
    ++ "            </div>\n"
    ++ "        </div>\n"
    ++ "        \n"
    ++ "        <div class=\"data-status\">\n"
    ++ "            <h3>📊 Data Status</h3>\n"
    ++ "            <p id=\"data-status-text\">🔄 Checking for analysis data...</p>\n"
    ++ "        </div>\n"
    ++ "        \n"
    ++ "        <div class=\"dashboard-grid\">\n"
    ++ "            <a href=\""

/-- A literal fragment of the page template of `create_dashboard_index`. -/
def ic_part1 : String :=
    "\" class=\"dashboard-card\">\n"
    ++ "                <span class=\"card-icon\">🔒</span>\n"
    ++ "                <div class=\"card-title\">\n"
    ++ "                    <span class=\"status-indicator status-ready\"></span>\n"
    ++ "                    Unsafe/FFI Analysis\n"
    ++ "                </div>\n"
    ++ "                <div class=\"card-description\">\n"
    ++ "                    Monitor unsafe operations and foreign function interface calls with real-time risk assessment and memory violation detection.\n"
    ++ "                </div>\n"
    ++ "                <ul class=\"card-features\">\n"
    ++ "                    <li>Unsafe operation tracking</li>\n"
    ++ "                    <li>FFI call monitoring</li>\n"
    ++ "                    <li>Memory violation detection</li>\n"
    ++ "                    <li>Risk scoring system</li>\n"
    ++ "                    <li>SVG export support</li>\n"
    ++ "                </ul>\n"
    ++ "            </a>\n"
    ++ "            \n"
    ++ "            <a href=\""

/-- A literal fragment of the page template of `create_dashboard_index`. -/
def ic_part2 : String :=
    "\" class=\"dashboard-card\">\n"
    ++ "                <span class=\"card-icon\">📊</span>\n"
    ++ "                <div class=\"card-title\">\n"
    ++ "                    <span class=\"status-indicator status-ready\"></span>\n"
    ++ "                    Memory Analysis\n"
    ++ "                </div>\n"
    ++ "                <div class=\"card-description\">\n"
    ++ "                    Comprehensive memory usage analysis with allocation tracking, performance metrics, and efficiency monitoring.\n"
    ++ "                </div>\n"
    ++ "                <ul class=\"card-features\">\n"
    ++ "                    <li>Memory usage timeline</li>\n"
    ++ "                    <li>Allocation size distribution</li>\n"
    ++ "                    <li>Performance metrics</li>\n"
    ++ "                    <li>Memory efficiency tracking</li>\n"
    ++ "                    <li>Interactive charts</li>\n"
    ++ "                </ul>\n"
    ++ "            </a>\n"
    ++ "            \n"
    ++ "            <a href=\""

/-- A literal fragment of the page template of `create_dashboard_index`. -/
def ic_part3 : String :=
    "\" class=\"dashboard-card\">\n"
    ++ "                <span class=\"card-icon\">🛡️</span>\n"
    ++ "                <div class=\"card-title\">\n"
    ++ "                    <span class=\"status-indicator status-ready\"></span>\n"
    ++ "                    Unsafe/FFI (Classic)\n"
    ++ "                </div>\n"
    ++ "                <div class=\"card-description\">\n"
    ++ "                    Original unsafe operations dashboard with detailed memory safety analysis and visualization.\n"
    ++ "                </div>\n"
    ++ "                <ul class=\"card-features\">\n"
    ++ "                    <li>Classic interface design</li>\n"
    ++ "                    <li>Detailed safety metrics</li>\n"
    ++ "                    <li>Memory violation tracking</li>\n"
    ++ "                    <li>Risk assessment</li>\n"
    ++ "                    <li>Legacy compatibility</li>\n"
    ++ "                </ul>\n"
    ++ "            </a>\n"
    ++ "            \n"
    ++ "            <a href=\""

/-- A literal fragment of the page template of `create_dashboard_index`. -/
def ic_part4 : String :=
    "\" class=\"dashboard-card\">\n"
    ++ "                <span class=\"card-icon\">🎛️</span>\n"
    ++ "                <div class=\"card-title\">\n"
    ++ "                    <span class=\"status-indicator status-ready\"></span>\n"
    ++ "                    Classic Dashboard\n"
    ++ "                </div>\n"
    ++ "                <div class=\"card-description\">\n"
    ++ "                    Original dashboard interface with basic memory tracking and visualization features for simple analysis.\n"
    ++ "                </div>\n"
    ++ "                <ul class=\"card-features\">\n"
    ++ "                    <li>Basic memory tracking</li>\n"
    ++ "                    <li>Simple visualization</li>\n"
    ++ "                    <li>Legacy compatibility</li>\n"
    ++ "                    <li>Lightweight interface</li>\n"
    ++ "                    <li>Quick overview</li>\n"
    ++ "                </ul>\n"
    ++ "            </a>\n"
    ++ "        </div>\n"
    ++ "        \n"
    ++ "        <div class=\"footer\">\n"
    ++ "            <p>🦀 Rust Memory Analysis Dashboard | Built with ❤️ for memory safety</p>\n"
    ++ "            <p>Server running on <span id=\"server-info\"></span></p>\n"
    ++ "            <p><small>Use Ctrl+C to stop the server</small></p>\n"
    ++ "        </div>\n"
    ++ "    </div>\n"
    ++ "    \n"
    ++ "    <script>\n"
    ++ "        // Check data availability\n"
    ++ "        async function checkDataStatus() \x7b\n"
    ++ "            try \x7b\n"
    ++ "                const response = await fetch(\x27data.json\x27);\n"
    ++ "                if (response.ok) \x7b\n"
    ++ "                    const data = await response.json();\n"
    ++ "                    const allocCount = data.memory_stats?.total_allocations || 0;\n"
    ++ "                    const unsafeOps = data.unsafe_stats?.total_operations || 0;\n"
    ++ "                    \n"
    ++ "                    document.getElementById(\x27data-status-text\x27).innerHTML = \n"
    ++ "                        `✅ Analysis data loaded successfully<br>` +\n"
    ++ "                        `📈 $\x7ballocCount.toLocaleString()\x7d allocations tracked<br>` +\n"
    ++ "                        `🔒 $\x7bunsafeOps.toLocaleString()\x7d unsafe operations monitored<br>` +\n"
    ++ "                        `🕒 Last updated: $\x7bnew Date().toLocaleString()\x7d`;\n"
    ++ "                \x7d else \x7b\n"
    ++ "                    throw new Error(\x27Data not found\x27);\n"
    ++ "                \x7d\n"
    ++ "            \x7d catch (error) \x7b\n"
    ++ "                document.getElementById(\x27data-status-text\x27).innerHTML = \n"
    ++ "                    `⚠️ No analysis data found. Run a Rust example to generate data:<br>` +\n"
    ++ "                    `<code style=\"background: rgba(255,255,255,0.2); padding: 4px 8px; border-radius: 4px;\">cargo run --example unsafe_ffi_demo</code><br>` +\n"
    ++ "                    `<code style=\"background: rgba(255,255,255,0.2); padding: 4px 8px; border-radius: 4px;\">cargo run --example memory_stress_test</code>`;\n"
    ++ "            \x7d\n"
    ++ "        \x7d\n"
    ++ "        \n"
    ++ "        // Update server info\n"
    ++ "        document.getElementById(\x27server-info\x27).textContent = window.location.host;\n"
    ++ "        \n"
    ++ "        // Check data status on load\n"
    ++ "        checkDataStatus();\n"
    ++ "        \n"
    ++ "        // Refresh data status every 30 seconds\n"
    ++ "        setInterval(checkDataStatus, 30000);\n"
    ++ "    </script>\n"
    ++ "</body>\n"
    ++ "</html>"

/-- The full page written by `create_dashboard_index`: a fixed template,
shown here split at the four dashboard-card `href` targets. -/
def index_content : String :=
  ic_part0 ++ "unsafe_ffi_dashboard_v2.html"
    ++ ic_part1 ++ "memory_analysis_dashboard.html"
    ++ ic_part2 ++ "unsafe_ffi_dashboard.html"
    ++ ic_part3 ++ "index.html"
    ++ ic_part4


/-! ### StaticFileServer: headers, file serving, request handling -/

/-- Python `s.endswith(suf)`: the characters of `suf` are a suffix of
those of `s` (checked on reversed lists, as a prefix). -/
def endswith (s suf : String) : Bool :=
  suf.data.reverse.isPrefixOf s.data.reverse

/-- The asset-extension tuple of `DashboardHandler.end_headers`. -/
def asset_exts : List String := [".css", ".js", ".svg", ".png", ".jpg"]

/-- Python `self.path.endswith((".css", ".js", ".svg", ".png", ".jpg"))`. -/
def is_asset_path (path : String) : Bool := asset_exts.any (fun e => endswith path e)

/-- The headers added by `DashboardHandler.end_headers` for a response
whose (rewritten) request path is `path`: the three CORS headers always,
plus the one-hour public cache directive for asset extensions. -/
def end_headers (path : String) : List (String × String) :=
  [("Access-Control-Allow-Origin", "*"),
   ("Access-Control-Allow-Methods", "GET, POST, OPTIONS"),
   ("Access-Control-Allow-Headers", "Content-Type")]
  ++ (if is_asset_path path then [("Cache-Control", "public, max-age=3600")] else [])

/-- The cache header sent for asset paths. -/
def cache_header : String × String := ("Cache-Control", "public, max-age=3600")

/-- An HTTP response: status code, headers, body bytes. -/
structure Response : Type where
  status : Nat
  headers : List (String × String)
  body : String
deriving DecidableEq

/-- Base `SimpleHTTPRequestHandler` file delivery from the serving directory
`web_dashboard`: 200 with the file content when present, 404 otherwise;
`end_headers` runs on both paths (`send_error` also calls it). -/
def serve_file (fs : FS) (path : String) : Response :=
  match fs ("web_dashboard" ++ path) with
  | some content => { status := 200, headers := end_headers path, body := content }
  | none => { status := 404, headers := end_headers path, body := "" }

/-- Handler `DashboardHandler.do_GET`: rewrite `self.path` through the alias
table, then delegate to the superclass file server. -/
def do_GET (fs : FS) (path : String) : Response :=
  serve_file fs (resolve_path fs path)

/-- One full GET round trip: the response together with the console
lines produced for it, all via the overridden `log_message`. A found
file logs once (`send_response` calls `log_request`); a 404 logs twice,
because `send_head` calls `send_error(404, "File not found")`, which
first calls `log_error` and then `send_response`, which calls
`log_request`. `requestline` is the HTTP request line logged by the
base handler. -/
def handle_GET (fs : FS) (timestamp requestline path : String) : Response × List String :=
  let r := do_GET fs path
  if r.status = 404 then
    (r, [log_message timestamp (error_log_line 404 "File not found"),
         log_message timestamp (log_line requestline r.status)])
  else
    (r, [log_message timestamp (log_line requestline r.status)])

/-! ### IndexPageGenerator state transform and `start_server` wiring -/

/-- Function `create_dashboard_index()`: writes the fixed template to
`web_dashboard/dashboard_index.html`, as a filesystem transform. -/
def create_dashboard_index (fs : FS) : FS :=
  fun p => if p == "web_dashboard/dashboard_index.html" then some index_content else fs p

/-- The guarded call in `start_server` (the spec name is
`ensureIndexPage`): generate the landing page only when it is absent. -/
def ensure_index_page (fs : FS) : FS :=
  if path_exists fs "web_dashboard/dashboard_index.html" then fs else create_dashboard_index fs

/-- Observable process actions, in program order. -/
inductive Action : Type where
  | print (s : String) : Action
  | writeFile (path content : String) : Action
  | openSocket (port : Nat) : Action
  | openBrowser (url : String) : Action
  | respond (path : String) (r : Response) : Action
deriving DecidableEq

/-- Events reaching the serving loop: an incoming GET request (with the
timestamp at which it is logged), or the operator interrupt
(`KeyboardInterrupt`). -/
inductive ServerEvent : Type where
  | request (timestamp path : String) : ServerEvent
  | interrupt : ServerEvent
deriving DecidableEq

/-- Whether an event is the operator interrupt. -/
def is_interrupt : ServerEvent → Bool
  | .interrupt => true
  | .request _ _ => false

/-- The actions emitted for a single GET request inside the serving
loop: the log line(s) the handler prints through `log_message`, then
the response. A 404 prints two lines (the `log_error` line from
`send_error`, then the `log_request` line); a found file prints one. -/
def handle_actions (fs : FS) (ts path : String) : List Action :=
  let r := do_GET fs path
  if r.status = 404 then
    [.print (log_message ts (error_log_line 404 "File not found")),
     .print (log_message ts (log_line ("GET " ++ path ++ " HTTP/1.1") r.status)),
     .respond path r]
  else
    [.print (log_message ts (log_line ("GET " ++ path ++ " HTTP/1.1") r.status)),
     .respond path r]

/-- Loop `httpd.serve_forever()` under a stream of events: serves requests in
order until the first interrupt; returns the emitted actions and whether
an interrupt was observed (requests after the interrupt are never
accepted). -/
def serve_until_interrupt (fs : FS) : List ServerEvent → List Action × Bool
  | [] => ([], false)
  | .interrupt :: _ => ([], true)
  | .request ts p :: rest =>
    let s := serve_until_interrupt fs rest
    (handle_actions fs ts p ++ s.1, s.2)

/-- Entry point `start_server(port, auto_open)`: the process entry point as a trace
function. Inputs: the filesystem at startup, bindability of each port,
the requested base port, the browser flag, and the event stream for the
serving loop. Output: the action trace and the exit code (`none` when
the loop is still blocked in `serve_forever` with no interrupt). -/
def start_server (fs : FS) (can_bind : Nat → Bool) (port : Nat) (auto_open : Bool)
    (events : List ServerEvent) : List Action × Option Nat :=
  if path_exists fs "web_dashboard" = false then
    ([.print "❌ Error: web_dashboard directory not found!",
      .print "   Make sure you\x27re running this script from the project root."], some 1)
  else
    let fs1 := ensure_index_page fs
    let index_acts : List Action :=
      if path_exists fs "web_dashboard/dashboard_index.html" then [] else
        [.print "📝 Creating enhanced dashboard index...",
         .writeFile "web_dashboard/dashboard_index.html" index_content]
    let data_acts : List Action :=
      if path_exists fs1 "web_dashboard/data.json" then [] else
        [.print "⚠️  Warning: data.json not found in web_dashboard/"]
    match find_available_port can_bind port with
    | .error e =>
      (index_acts ++ data_acts ++ [.print ("❌ Error: " ++ e)], some 1)
    | .ok p =>
      let banner : List Action :=
        [.openSocket p,
         .print "🚀 Memory Analysis Dashboard Server",
         .print ("📡 Server running at: http://localhost:" ++ toString p)]
      let browser_acts : List Action :=
        if auto_open then [.openBrowser ("http://localhost:" ++ toString p)] else []
      let s := serve_until_interrupt fs1 events
      if s.2 then
        (index_acts ++ data_acts ++ banner ++ browser_acts ++ s.1 ++
          [.print "\n👋 Server stopped by user",
           .print "   Thanks for using the Memory Analysis Dashboard!"], some 0)
      else
        (index_acts ++ data_acts ++ banner ++ browser_acts ++ s.1, none)

/-- The paths answered by a trace, in order. -/
def responded_paths : List Action → List String
  | [] => []
  | .respond p _ :: rest => p :: responded_paths rest
  | .print _ :: rest => responded_paths rest
  | .writeFile _ _ :: rest => responded_paths rest
  | .openSocket _ :: rest => responded_paths rest
  | .openBrowser _ :: rest => responded_paths rest

/-- The request paths of an event stream, in order. -/
def request_paths : List ServerEvent → List String
  | [] => []
  | .request _ p :: rest => p :: request_paths rest
  | .interrupt :: rest => request_paths rest


/-! ## Claims -/

/-- C1: the resolver rewrites request paths by exact match: `/` to
`dashboard_index.html`; `/unsafe(/)` to `unsafe_ffi_dashboard_v2.html`;
`/memory(/)` to `memory_analysis_dashboard.html`; `/classic(/)` to
`index.html`; `/lifecycle(/)` to `lifecycle_dashboard.html` when that
file exists at call time and to `memory_analysis_dashboard.html`
otherwise; every other path is passed through unchanged; and only the
`/lifecycle` aliases consult the filesystem (resolution of any other
path is independent of the filesystem). -/
theorem resolve_path_spec :
    (∀ fs : FS, resolve_path fs "/" = "/dashboard_index.html")
    ∧ (∀ fs : FS, resolve_path fs "/unsafe" = "/unsafe_ffi_dashboard_v2.html"
        ∧ resolve_path fs "/unsafe/" = "/unsafe_ffi_dashboard_v2.html")
    ∧ (∀ fs : FS, resolve_path fs "/memory" = "/memory_analysis_dashboard.html"
        ∧ resolve_path fs "/memory/" = "/memory_analysis_dashboard.html")
    ∧ (∀ fs : FS, resolve_path fs "/classic" = "/index.html"
        ∧ resolve_path fs "/classic/" = "/index.html")
    ∧ (∀ fs : FS,
        (path_exists fs "web_dashboard/lifecycle_dashboard.html" = true →
          resolve_path fs "/lifecycle" = "/lifecycle_dashboard.html"
          ∧ resolve_path fs "/lifecycle/" = "/lifecycle_dashboard.html")
        ∧ (path_exists fs "web_dashboard/lifecycle_dashboard.html" = false →
          resolve_path fs "/lifecycle" = "/memory_analysis_dashboard.html"
          ∧ resolve_path fs "/lifecycle/" = "/memory_analysis_dashboard.html"))
    ∧ (∀ (fs : FS) (path : String), path ∉ alias_paths → resolve_path fs path = path)
    ∧ (∀ (fs1 fs2 : FS) (path : String), path ≠ "/lifecycle" → path ≠ "/lifecycle/" →
        resolve_path fs1 path = resolve_path fs2 path) := by
  refine ⟨fun fs => rfl, fun fs => ⟨rfl, rfl⟩, fun fs => ⟨rfl, rfl⟩, fun fs => ⟨rfl, rfl⟩,
    fun fs => ⟨fun h => ?_, fun h => ?_⟩, fun fs path h => ?_, fun fs1 fs2 path h1 h2 => ?_⟩
  · constructor <;> simp [resolve_path, h]
  · constructor <;> simp [resolve_path, h]
  · simp only [alias_paths, List.mem_cons, List.not_mem_nil, or_false, not_or] at h
    obtain ⟨g1, g2, g3, g4, g5, g6, g7, g8, g9⟩ := h
    simp [resolve_path, g1, g2, g3, g4, g5, g6, g7, g8, g9]
  · by_cases a1 : path = "/"
    · subst a1; rfl
    by_cases a2 : path = "/unsafe"
    · subst a2; rfl
    by_cases a3 : path = "/unsafe/"
    · subst a3; rfl
    by_cases a4 : path = "/memory"
    · subst a4; rfl
    by_cases a5 : path = "/memory/"
    · subst a5; rfl
    by_cases a6 : path = "/classic"
    · subst a6; rfl
    by_cases a7 : path = "/classic/"
    · subst a7; rfl
    simp [resolve_path, a1, a2, a3, a4, a5, a6, a7, h1, h2]

/-- Witness for C1 at concrete inputs: a non-alias path passes through,
and `/lifecycle` falls back when the lifecycle page is absent. -/
theorem resolve_path_spec_witness :
    resolve_path (fun _ => none) "/styles.css" = "/styles.css"
    ∧ resolve_path (fun _ => none) "/lifecycle" = "/memory_analysis_dashboard.html" := by
  refine ⟨resolve_path_spec.2.2.2.2.2.1 (fun _ => none) "/styles.css" (by decide), ?_⟩
  exact ((resolve_path_spec.2.2.2.2.1 (fun _ => none)).2 rfl).1

/-- The port-scan loop: success yields the first bindable port in the
scanned window. -/
theorem find_port_loop_some {can_bind : Nat → Bool} :
    ∀ {fuel port p : Nat}, find_port_loop can_bind port fuel = some p →
      port ≤ p ∧ p < port + fuel ∧ can_bind p = true ∧
        ∀ q, port ≤ q → q < p → can_bind q = false := by
  intro fuel
  induction fuel with
  | zero => intro port p h; simp [find_port_loop] at h
  | succ n ih =>
    intro port p h
    simp only [find_port_loop] at h
    by_cases hb : can_bind port = true
    · rw [if_pos hb] at h
      obtain rfl : port = p := by simpa using h
      exact ⟨le_refl _, by omega, hb, fun q hq1 hq2 => absurd hq1 (by omega)⟩
    · rw [if_neg hb] at h
      obtain ⟨u1, u2, u3, u4⟩ := ih h
      refine ⟨by omega, by omega, u3, fun q hq1 hq2 => ?_⟩
      rcases Nat.eq_or_lt_of_le hq1 with rfl | hlt
      · exact Bool.not_eq_true _ ▸ (by simpa using hb)
      · exact u4 q (by omega) hq2

/-- The port-scan loop: failure means no port in the scanned window is
bindable. -/
theorem find_port_loop_none {can_bind : Nat → Bool} :
    ∀ {fuel port : Nat}, find_port_loop can_bind port fuel = none ↔
      ∀ q, port ≤ q → q < port + fuel → can_bind q = false := by
  intro fuel
  induction fuel with
  | zero =>
    intro port
    exact ⟨fun _ q h1 h2 => absurd h1 (by omega), fun _ => rfl⟩
  | succ n ih =>
    intro port
    simp only [find_port_loop]
    by_cases hb : can_bind port = true
    · rw [if_pos hb]
      constructor
      · intro h; exact absurd h (by simp)
      · intro h
        exact absurd (h port (le_refl _) (by omega)) (by simp [hb])
    · rw [if_neg hb]
      rw [ih]
      constructor
      · intro h q h1 h2
        rcases Nat.eq_or_lt_of_le h1 with rfl | hlt
        · exact Bool.not_eq_true _ ▸ (by simpa using hb)
        · exact h q (by omega) (by omega)
      · intro h q h1 h2
        exact h q (by omega) (by omega)

/-- C2: `find_available_port(start)` scans `[start, start + 100)` in
ascending order: a returned port is at least `start`, lies in the
window, is bindable at call time, and every smaller port in the window
is not bindable (first match); when no port in the window is bindable it
fails with the port-exhaustion error instead of returning. -/
theorem find_available_port_spec (can_bind : Nat → Bool) (start_port : Nat) :
    (∀ p, find_available_port can_bind start_port = .ok p →
      start_port ≤ p ∧ p < start_port + 100 ∧ can_bind p = true ∧
        ∀ q, start_port ≤ q → q < p → can_bind q = false)
    ∧ (find_available_port can_bind start_port = .error "No available ports found" ↔
      ∀ q, start_port ≤ q → q < start_port + 100 → can_bind q = false) := by
  constructor
  · intro p h
    unfold find_available_port at h
    cases hl : find_port_loop can_bind start_port 100 with
    | none => rw [hl] at h; exact absurd h (by simp)
    | some r =>
      rw [hl] at h
      obtain rfl : r = p := by simpa using h
      exact find_port_loop_some hl
  · unfold find_available_port
    cases hl : find_port_loop can_bind start_port 100 with
    | none =>
      simpa using find_port_loop_none.mp hl
    | some r =>
      simp only [reduceCtorEq, false_iff]
      intro h
      have := find_port_loop_none.mpr (by intro q h1 h2; exact h q h1 h2)
      rw [hl] at this
      exact absurd this (by simp)

/-- Witness for C2 at a concrete bindability map: with only port 8081
bindable, the scan from 8080 returns 8081, inside the window and
bindable. -/
theorem find_available_port_spec_witness :
    8080 ≤ 8081 ∧ 8081 < 8080 + 100 ∧ (fun q => q == 8081) 8081 = true := by
  obtain ⟨a, b, c, _⟩ :=
    (find_available_port_spec (fun q => q == 8081) 8080).1 8081 (by rfl)
  exact ⟨a, b, c⟩


/-- Two nonempty lists that are both prefixes of the same list start
with the same element. -/
theorem isPrefixOf_head_eq {a b : Char} {l1 l2 l : List Char}
    (h1 : (a :: l1).isPrefixOf l = true) (h2 : (b :: l2).isPrefixOf l = true) : a = b := by
  cases l with
  | nil => simp at h1
  | cons c cs =>
    rw [List.isPrefixOf_cons₂, Bool.and_eq_true] at h1 h2
    exact (eq_of_beq h1.1).trans (eq_of_beq h2.1).symm

/-- A path ending in `.html` cannot also end in an extension whose last
character differs from `l`. -/
theorem endswith_excl {path e : String} {c : Char} {rest : List Char}
    (h : endswith path ".html" = true) (he : e.data.reverse = c :: rest) (hne : c ≠ 'l') :
    endswith path e = false := by
  unfold endswith at h ⊢
  rw [he]
  cases hc : (c :: rest).isPrefixOf path.data.reverse with
  | false => rfl
  | true =>
    have hh : (('l' : Char) :: ['m', 't', 'h', '.']).isPrefixOf path.data.reverse = true := by
      have e5 : (".html" : String).data.reverse = 'l' :: ['m', 't', 'h', '.'] := rfl
      rw [e5] at h
      exact h
    exact absurd (isPrefixOf_head_eq hc hh) hne

/-- A path ending in `.html` matches none of the five asset extensions. -/
theorem html_not_asset {path : String} (h : endswith path ".html" = true) :
    is_asset_path path = false := by
  have c1 : endswith path ".css" = false := endswith_excl h rfl (by decide)
  have c2 : endswith path ".js" = false := endswith_excl h rfl (by decide)
  have c3 : endswith path ".svg" = false := endswith_excl h rfl (by decide)
  have c4 : endswith path ".png" = false := endswith_excl h rfl (by decide)
  have c5 : endswith path ".jpg" = false := endswith_excl h rfl (by decide)
  simp [is_asset_path, asset_exts, c1, c2, c3, c4, c5]

/-- C3: every response carries the three cross-origin headers; the
cache-control header `public, max-age=3600` is present exactly when the
resolved path ends in one of `.css .js .svg .png .jpg`; paths ending in
`.html` never receive it; and the headers of a completed GET are those
computed by `end_headers` on the resolved path (so this holds for 200
and 404 responses alike). -/
theorem end_headers_spec :
    (∀ path : String,
      ("Access-Control-Allow-Origin", "*") ∈ end_headers path
      ∧ ("Access-Control-Allow-Methods", "GET, POST, OPTIONS") ∈ end_headers path
      ∧ ("Access-Control-Allow-Headers", "Content-Type") ∈ end_headers path)
    ∧ (∀ path : String, cache_header ∈ end_headers path ↔ is_asset_path path = true)
    ∧ (∀ path : String, endswith path ".html" = true → cache_header ∉ end_headers path)
    ∧ (∀ (fs : FS) (path : String),
        (do_GET fs path).headers = end_headers (resolve_path fs path)) := by
  have hmem : ∀ path : String, cache_header ∈ end_headers path ↔ is_asset_path path = true := by
    intro path
    cases hc : is_asset_path path with
    | false => simp [end_headers, hc, cache_header]
    | true => simp [end_headers, hc, cache_header]
  refine ⟨fun path => ?_, hmem, fun path h => ?_, fun fs path => ?_⟩
  · simp [end_headers]
  · intro hin
    have := (hmem path).mp hin
    rw [html_not_asset h] at this
    cases this
  · unfold do_GET serve_file
    cases fs ("web_dashboard" ++ resolve_path fs path) <;> rfl

/-- Witness for C3 at concrete paths: a stylesheet path receives the
cache header, an HTML path does not. -/
theorem end_headers_spec_witness :
    cache_header ∈ end_headers "/styles.css" ∧ cache_header ∉ end_headers "/index.html" :=
  ⟨(end_headers_spec.2.1 "/styles.css").mpr (by decide),
   end_headers_spec.2.2.1 "/index.html" (by decide)⟩


/-! ### IndexPageGenerator properties -/

/-- The four dashboard files advertised as cards on the generated
landing page. -/
def card_files : List String :=
  ["unsafe_ffi_dashboard_v2.html", "memory_analysis_dashboard.html",
   "unsafe_ffi_dashboard.html", "index.html"]

/-- The empty filesystem: nothing exists. -/
def empty_fs : FS := fun _ => none

/-- A concrete filesystem whose landing page already exists with
user-customised content. -/
def fs_with_index : FS :=
  fun p => if p == "web_dashboard/dashboard_index.html" then some "custom" else none

/-- Each of the four card targets occurs verbatim in the fixed page
template. -/
theorem index_content_occurs :
    occursIn "unsafe_ffi_dashboard_v2.html" index_content
    ∧ occursIn "memory_analysis_dashboard.html" index_content
    ∧ occursIn "unsafe_ffi_dashboard.html" index_content
    ∧ occursIn "index.html" index_content := by
  refine ⟨⟨ic_part0.data,
      (ic_part1 ++ "memory_analysis_dashboard.html" ++ ic_part2 ++ "unsafe_ffi_dashboard.html"
        ++ ic_part3 ++ "index.html" ++ ic_part4).data, ?_⟩,
    ⟨(ic_part0 ++ "unsafe_ffi_dashboard_v2.html" ++ ic_part1).data,
      (ic_part2 ++ "unsafe_ffi_dashboard.html" ++ ic_part3 ++ "index.html" ++ ic_part4).data, ?_⟩,
    ⟨(ic_part0 ++ "unsafe_ffi_dashboard_v2.html" ++ ic_part1 ++ "memory_analysis_dashboard.html"
        ++ ic_part2).data,
      (ic_part3 ++ "index.html" ++ ic_part4).data, ?_⟩,
    ⟨(ic_part0 ++ "unsafe_ffi_dashboard_v2.html" ++ ic_part1 ++ "memory_analysis_dashboard.html"
        ++ ic_part2 ++ "unsafe_ffi_dashboard.html" ++ ic_part3).data,
      ic_part4.data, ?_⟩⟩
  all_goals simp only [index_content, data_append, List.append_assoc]

/-- C5: `ensureIndexPage` is idempotent — when the landing page already
exists the call changes nothing; a second call after a first never
changes anything; and no existing file content is ever overwritten. -/
theorem ensure_index_page_idempotent :
    (∀ fs : FS, path_exists fs "web_dashboard/dashboard_index.html" = true →
      ensure_index_page fs = fs)
    ∧ (∀ fs : FS, ensure_index_page (ensure_index_page fs) = ensure_index_page fs)
    ∧ (∀ (fs : FS) (p c : String), fs p = some c → ensure_index_page fs p = some c) := by
  have hkeep : ∀ fs : FS, path_exists fs "web_dashboard/dashboard_index.html" = true →
      ensure_index_page fs = fs := by
    intro fs h
    simp [ensure_index_page, h]
  refine ⟨hkeep, fun fs => ?_, fun fs p c h => ?_⟩
  · by_cases h : path_exists fs "web_dashboard/dashboard_index.html" = true
    · rw [hkeep fs h]; exact hkeep fs h
    · have hcrt : ensure_index_page fs = create_dashboard_index fs := by
        simp [ensure_index_page, h]
      rw [hcrt]
      refine hkeep _ ?_
      simp [path_exists, create_dashboard_index]
  · by_cases he : path_exists fs "web_dashboard/dashboard_index.html" = true
    · rw [hkeep fs he]; exact h
    · have hcrt : ensure_index_page fs = create_dashboard_index fs := by
        simp [ensure_index_page, he]
      rw [hcrt]
      unfold create_dashboard_index
      by_cases hp : p = "web_dashboard/dashboard_index.html"
      · subst hp
        exact absurd (by simp [path_exists, h]) he
      · simp [hp, h]

/-- Witness for C5 on a filesystem that already has a customised
landing page: the call is the identity and the content is preserved
byte for byte. -/
theorem ensure_index_page_idempotent_witness :
    ensure_index_page fs_with_index = fs_with_index
    ∧ ensure_index_page fs_with_index "web_dashboard/dashboard_index.html" = some "custom" :=
  ⟨ensure_index_page_idempotent.1 fs_with_index rfl,
   ensure_index_page_idempotent.2.2 fs_with_index "web_dashboard/dashboard_index.html" "custom" rfl⟩

/-- C9: the generator writes one fixed constant string to
`web_dashboard/dashboard_index.html` — any two invocations write
identical bytes — and that string unconditionally contains the card
targets `unsafe_ffi_dashboard_v2.html`, `memory_analysis_dashboard.html`,
`unsafe_ffi_dashboard.html` and `index.html`, regardless of which files
exist on disk. -/
theorem create_dashboard_index_constant :
    (∀ fs1 fs2 : FS,
      create_dashboard_index fs1 "web_dashboard/dashboard_index.html"
        = create_dashboard_index fs2 "web_dashboard/dashboard_index.html")
    ∧ (∀ fs : FS,
      create_dashboard_index fs "web_dashboard/dashboard_index.html" = some index_content)
    ∧ (∀ f ∈ card_files, occursIn f index_content) := by
  refine ⟨fun fs1 fs2 => rfl, fun fs => rfl, fun f hf => ?_⟩
  simp only [card_files, List.mem_cons, List.not_mem_nil, or_false] at hf
  rcases hf with rfl | rfl | rfl | rfl
  · exact index_content_occurs.1
  · exact index_content_occurs.2.1
  · exact index_content_occurs.2.2.1
  · exact index_content_occurs.2.2.2

/-- Witness for C9 at a concrete card file: the constant page
references `index.html`. -/
theorem create_dashboard_index_constant_witness :
    occursIn "index.html" index_content :=
  create_dashboard_index_constant.2.2 "index.html" (by simp [card_files])

/-- C4 as stated is false: generating the landing page over the empty
filesystem still advertises `unsafe_ffi_dashboard.html`, a dashboard
file that does not exist there. -/
theorem create_dashboard_index_counterexample :
    ¬ (∀ (fs : FS), ∀ f ∈ card_files,
        occursIn f ((create_dashboard_index fs "web_dashboard/dashboard_index.html").getD "") →
        path_exists fs ("web_dashboard/" ++ f) = true) := by
  intro h
  have hocc : occursIn "unsafe_ffi_dashboard.html"
      ((create_dashboard_index empty_fs "web_dashboard/dashboard_index.html").getD "") := by
    have e : (create_dashboard_index empty_fs "web_dashboard/dashboard_index.html").getD ""
        = index_content := rfl
    rw [e]
    exact index_content_occurs.2.2.1
  have := h empty_fs "unsafe_ffi_dashboard.html" (by simp [card_files]) hocc
  simp [path_exists, empty_fs] at this

/-- C4 amended: the generated landing page advertises the four
dashboard cards unconditionally; the advertised files may be absent
from disk at generation time (no existence check is performed). -/
theorem create_dashboard_index_advertises_all :
    ∀ (fs : FS), ∀ f ∈ card_files,
      occursIn f ((create_dashboard_index fs "web_dashboard/dashboard_index.html").getD "") := by
  intro fs f hf
  have e : (create_dashboard_index fs "web_dashboard/dashboard_index.html").getD ""
      = index_content := rfl
  rw [e]
  simp only [card_files, List.mem_cons, List.not_mem_nil, or_false] at hf
  rcases hf with rfl | rfl | rfl | rfl
  · exact index_content_occurs.1
  · exact index_content_occurs.2.1
  · exact index_content_occurs.2.2.1
  · exact index_content_occurs.2.2.2

/-- Witness for the amended C4 at a concrete input: even the empty
filesystem gets a page advertising `unsafe_ffi_dashboard.html`. -/
theorem create_dashboard_index_advertises_all_witness :
    occursIn "unsafe_ffi_dashboard.html"
      ((create_dashboard_index empty_fs "web_dashboard/dashboard_index.html").getD "") :=
  create_dashboard_index_advertises_all empty_fs "unsafe_ffi_dashboard.html" (by simp [card_files])

/-! ### Logging and classification -/

/-- C10: the log classification is a pure function of the formatted
line, decided by substring tests in fixed order — Success when `200`
occurs anywhere in the line, otherwise NotFound when `404` occurs,
otherwise Other. Consequently the 404 log line of `GET /200.html` is
classified Success, and a 204 response line lacking `200` is classified
Other. -/
theorem classify_substring_spec :
    (∀ line : String,
      (classify line = .success ↔ occursIn "200" line)
      ∧ (classify line = .notFound ↔ (¬ occursIn "200" line ∧ occursIn "404" line))
      ∧ (classify line = .other ↔ (¬ occursIn "200" line ∧ ¬ occursIn "404" line)))
    ∧ classify (log_line "GET /200.html HTTP/1.1" 404) = .success
    ∧ classify (log_line "GET /page.html HTTP/1.1" 204) = .other := by
  refine ⟨fun line => ?_, by decide, by decide⟩
  have e200 := str_contains_iff line "200"
  have e404 := str_contains_iff line "404"
  unfold classify
  cases h2 : str_contains line "200" with
  | true =>
    rw [h2] at e200
    simp [e200.mp rfl]
  | false =>
    have n200 : ¬ occursIn "200" line := by
      intro hx
      rw [e200.mpr hx] at h2
      cases h2
    cases h4 : str_contains line "404" with
    | true =>
      rw [h4] at e404
      simp [n200, e404.mp rfl]
    | false =>
      have n404 : ¬ occursIn "404" line := by
        intro hx
        rw [e404.mpr hx] at h4
        cases h4
      simp [n200, n404]

/-- C6 as stated is false on two counts. Classification is not a
function of the numeric status: the 404 response to `GET /200.html` is
logged with a line containing the substring `200` and is classified
Success rather than NotFound. And a request is not always logged with
exactly one console line: a 404 writes two timestamped lines, the
`log_error` line of `send_error` and then the `log_request` line —
shown concretely for `GET /missing.html` over the empty filesystem. -/
theorem classify_not_status_based :
    (¬ (∀ (requestline : String) (status : Nat),
        (classify (log_line requestline status) = .success ↔ (200 ≤ status ∧ status ≤ 299))
        ∧ (classify (log_line requestline status) = .notFound ↔ status = 404)))
    ∧ (handle_GET empty_fs "12:00:00" "GET /missing.html HTTP/1.1" "/missing.html").2.length
        = 2 := by
  constructor
  · intro h
    have h2 := (h "GET /200.html HTTP/1.1" 404).1
    have h3 : (200 ≤ 404 ∧ 404 ≤ 299) := h2.mp (by decide)
    exact absurd h3.2 (by decide)
  · rfl

/-- C6 amended: a completed request is classified Success when its
formatted log line contains the substring `200`, otherwise NotFound
when it contains `404`, otherwise Other; each `log_message` call writes
one timestamped console line, so a served file logs exactly one line
per request while a 404 logs exactly two (the `send_error` error line,
then the request line); and the response equals the logging-free
`do_GET` result, so logging affects neither response bytes nor status
code. -/
theorem request_logging_spec :
    (∀ line : String,
      (str_contains line "200" = true → classify line = .success)
      ∧ (str_contains line "200" = false → str_contains line "404" = true →
          classify line = .notFound)
      ∧ (str_contains line "200" = false → str_contains line "404" = false →
          classify line = .other))
    ∧ (∀ (fs : FS) (ts rl path : String),
        (handle_GET fs ts rl path).2.length
          = if (do_GET fs path).status = 404 then 2 else 1)
    ∧ (∀ (fs : FS) (ts rl path : String), (handle_GET fs ts rl path).1 = do_GET fs path) := by
  refine ⟨fun line => ⟨fun h2 => ?_, fun h2 h4 => ?_, fun h2 h4 => ?_⟩,
    fun fs ts rl path => ?_, fun fs ts rl path => ?_⟩
  · simp [classify, h2]
  · simp [classify, h2, h4]
  · simp [classify, h2, h4]
  · unfold handle_GET
    by_cases h : (do_GET fs path).status = 404 <;> simp [h]
  · unfold handle_GET
    by_cases h : (do_GET fs path).status = 404 <;> simp [h]

/-- Witness for the amended C6 at a concrete line: the standard log
line of a 200 response is classified Success. -/
theorem request_logging_spec_witness :
    classify (log_line "GET / HTTP/1.1" 200) = Classification.success :=
  (request_logging_spec.1 (log_line "GET / HTTP/1.1" 200)).1 (by decide)


/-! ### Process-level startup and shutdown -/

/-- Responded paths distribute over trace concatenation. -/
theorem responded_paths_append :
    ∀ (xs ys : List Action), responded_paths (xs ++ ys) = responded_paths xs ++ responded_paths ys := by
  intro xs ys
  induction xs with
  | nil => rfl
  | cons a rest ih =>
    cases a with
    | print s => simpa [responded_paths] using ih
    | writeFile p c => simpa [responded_paths] using ih
    | openSocket p => simpa [responded_paths] using ih
    | openBrowser u => simpa [responded_paths] using ih
    | respond p r => simpa [responded_paths] using ih

/-- A single request contributes exactly its own path to the responded
paths, whether it logs one line (found) or two (404). -/
theorem responded_paths_handle_actions (fs : FS) (ts path : String) :
    responded_paths (handle_actions fs ts path) = [path] := by
  unfold handle_actions
  by_cases h : (do_GET fs path).status = 404 <;> simp [h, responded_paths]

/-- Behaviour of the serving loop on a stream that ends in an
interrupt: the interrupt is observed, and the requests answered are
exactly those arriving before it. -/
theorem serve_loop_interrupt (fs : FS) :
    ∀ (pre post : List ServerEvent), pre.all (fun e => !is_interrupt e) = true →
      (serve_until_interrupt fs (pre ++ ServerEvent.interrupt :: post)).2 = true
      ∧ responded_paths (serve_until_interrupt fs (pre ++ ServerEvent.interrupt :: post)).1
          = request_paths pre := by
  intro pre
  induction pre with
  | nil => intro post _; exact ⟨rfl, rfl⟩
  | cons e rest ih =>
    intro post hall
    rw [List.all_cons, Bool.and_eq_true] at hall
    cases e with
    | interrupt => simp [is_interrupt] at hall
    | request ts p =>
      obtain ⟨h1, h2⟩ := ih post hall.2
      constructor
      · simpa [serve_until_interrupt] using h1
      · simp [serve_until_interrupt, responded_paths_append,
          responded_paths_handle_actions, responded_paths, request_paths, h2]

/-- C7: when the static root directory `web_dashboard` is missing at
startup, the process prints an error and exits with code 1, and its
whole trace consists of console prints only — no socket is opened, no
file is written, no browser is launched and no request is answered. -/
theorem start_server_missing_root (fs : FS) (can_bind : Nat → Bool) (port : Nat)
    (auto_open : Bool) (events : List ServerEvent)
    (h : path_exists fs "web_dashboard" = false) :
    (start_server fs can_bind port auto_open events).2 = some 1
    ∧ ∀ a ∈ (start_server fs can_bind port auto_open events).1, ∃ s, a = Action.print s := by
  constructor
  · simp [start_server, h]
  · intro a ha
    simp [start_server, h] at ha
    rcases ha with rfl | rfl
    · exact ⟨_, rfl⟩
    · exact ⟨_, rfl⟩

/-- Witness for C7 on the empty filesystem: the process exits with
code 1. -/
theorem start_server_missing_root_witness :
    (start_server empty_fs (fun _ => true) 8080 true []).2 = some 1 :=
  (start_server_missing_root empty_fs (fun _ => true) 8080 true [] rfl).1

/-- C8: when the operator interrupt arrives while the server is blocked
in its serving loop, the loop exits, the shutdown notice is printed and
the process terminates with exit code 0; the requests answered are
exactly those that arrived before the interrupt, so no connection is
accepted afterwards. -/
theorem start_server_interrupt (fs : FS) (can_bind : Nat → Bool) (port p : Nat)
    (auto_open : Bool) (pre post : List ServerEvent)
    (hroot : path_exists fs "web_dashboard" = true)
    (hport : find_available_port can_bind port = Except.ok p)
    (hpre : pre.all (fun e => !is_interrupt e) = true) :
    (start_server fs can_bind port auto_open (pre ++ ServerEvent.interrupt :: post)).2 = some 0
    ∧ responded_paths
        (start_server fs can_bind port auto_open (pre ++ ServerEvent.interrupt :: post)).1
        = request_paths pre
    ∧ Action.print "\n👋 Server stopped by user"
        ∈ (start_server fs can_bind port auto_open (pre ++ ServerEvent.interrupt :: post)).1 := by
  obtain ⟨hs2, hs1⟩ := serve_loop_interrupt (ensure_index_page fs) pre post hpre
  refine ⟨?_, ?_, ?_⟩
  · simp [start_server, hroot, hport, hs2]
  · simp only [start_server, hroot, Bool.true_eq_false, if_false, hport, hs2, if_true,
      responded_paths_append, hs1]
    by_cases hidx : path_exists fs "web_dashboard/dashboard_index.html"
    · by_cases hdat : path_exists (ensure_index_page fs) "web_dashboard/data.json"
      · by_cases hao : auto_open = true <;>
          simp [hidx, hdat, hao, responded_paths, responded_paths_append, hs1]
      · by_cases hao : auto_open = true <;>
          simp [hidx, hdat, hao, responded_paths, responded_paths_append, hs1]
    · by_cases hdat : path_exists (ensure_index_page fs) "web_dashboard/data.json"
      · by_cases hao : auto_open = true <;>
          simp [hidx, hdat, hao, responded_paths, responded_paths_append, hs1]
      · by_cases hao : auto_open = true <;>
          simp [hidx, hdat, hao, responded_paths, responded_paths_append, hs1]
  · simp [start_server, hroot, hport, hs2]

/-- A concrete running configuration: the root directory, a customised
landing page and the data artifact all exist. -/
def demo_fs : FS := fun p =>
  if p == "web_dashboard" then some ""
  else if p == "web_dashboard/dashboard_index.html" then some "custom"
  else if p == "web_dashboard/data.json" then some "data"
  else none

/-- Witness for C8 on a concrete run: one request, then the operator
interrupt; the process exits with code 0. -/
theorem start_server_interrupt_witness :
    (start_server demo_fs (fun _ => true) 8080 false
      [ServerEvent.request "12:00:00" "/", ServerEvent.interrupt]).2 = some 0 :=
  (start_server_interrupt demo_fs (fun _ => true) 8080 8080 false
    [ServerEvent.request "12:00:00" "/"] [] rfl rfl rfl).1

end Memscope
